import Mathlib

/-!
Verification of the CleanFoam Pro worker-ledger core.

This file is a shallow embedding of src/app.py (a single-file Streamlit app)
over exact rational arithmetic.  Monetary amounts are modelled as rationals;
the Python None becomes Option; the empty-string placeholder used for the
financial fields of CF entries becomes none; the Streamlit session state
becomes an explicit SessionState record that the operations transform.
-/

namespace CleanFoam

/-- Python int() applied to a rational: truncation toward zero, which is
Int.tdiv of the numerator by the denominator. -/
def pyTrunc (q : ℚ) : ℤ := q.num.tdiv (q.den : ℤ)

/-- The fee table and fallback rules of compute_fee (src/app.py lines 45-51):
the exact-match dictionary `rules`, then the `int(total) % 10 == 5` test
(the Python `%` on a positive modulus agrees with Int.emod), then the
default of 30. -/
def fee_rules (total_value : ℚ) : ℚ :=
  if total_value = 80 then 20
  else if total_value = 90 then 20
  else if total_value = 95 then 22.5
  else if total_value = 100 then 25
  else if total_value = 105 then 27.5
  else if total_value = 110 then 25
  else if pyTrunc total_value % 10 = 5 then 32.5
  else 30

/-- The function compute_fee (src/app.py lines 41-51): a custom due that is
present and `> 0` overrides everything; otherwise the table and fallback
rules decide. -/
def compute_fee (total_value : ℚ) (custom_due : Option ℚ) : ℚ :=
  match custom_due with
  | some c => if 0 < c then c else fee_rules total_value
  | none => fee_rules total_value

/-- The exact-match table exactly as rule 2 of section 4.1 of the
specification words it.  Used only to compare against `compute_fee`. -/
def computeFee_spec_table : List (ℚ × ℚ) :=
  [(80, 20), (90, 20), (95, 22.5), (100, 25), (105, 27.5), (110, 25)]

/-- Steps 2-4 of the rule precedence of section 4.1 of the specification:
table lookup, then the truncate-and-mod test, then the default. -/
def computeFee_spec_rest (total : ℚ) : ℚ :=
  match computeFee_spec_table.lookup total with
  | some fee => fee
  | none => if pyTrunc total % 10 = 5 then 32.5 else 30

/-- The fee computation as the specification words it (section 4.1 rule
precedence).  Used only to compare against `compute_fee`. -/
def computeFee_spec (total : ℚ) (customDue : Option ℚ) : ℚ :=
  match customDue with
  | some c => if 0 < c then c else computeFee_spec_rest total
  | none => computeFee_spec_rest total

/-- The entry_type radio value (src/app.py line 89). -/
inductive EntryType where
  | Standard
  | CF
deriving DecidableEq

/-- The two validation failures of the add-worker form (src/app.py
lines 101-102): a missing worker name, and a non-positive total on a
Standard entry. -/
inductive ValidationError where
  | EmptyName
  | NonPositiveTotal
deriving DecidableEq

/-- One worker record, the dict built at src/app.py lines 106 and 110.
The empty-string placeholders a CF entry stores in Due, Withdrawn and
Remaining are modelled as `none`. -/
structure WorkerEntry where
  ID : String
  Worker : String
  Total : ℚ
  Due : Option ℚ
  Withdrawn : Option ℚ
  Remaining : Option ℚ
  Note : String
  entry_type : EntryType
deriving DecidableEq

/-- The part of the Streamlit session state the core logic touches
(src/app.py lines 19-30): the worker list and the two delete-dialog flags.
The report date is carried separately (see `ReportDate`). -/
structure SessionState where
  workers : List WorkerEntry
  worker_id_to_delete : Option String
  show_delete_dialog : Bool
deriving DecidableEq

/-- The state built by initialize_session_state (src/app.py lines 19-30):
empty ledger, no pending deletion, dialog hidden. -/
def initial_session_state : SessionState :=
  { workers := [], worker_id_to_delete := none, show_delete_dialog := false }

/-- The add-worker form handler (src/app.py lines 100-113).  Here `wid`
stands for the fresh `uuid.uuid4().hex`.  The Python `if not name` is true
exactly for the empty string.  Returns the new session state and the error
message shown, if any; on error the state is returned unchanged. -/
def addWorker (s : SessionState) (wid name : String) (total_value withdrawn_val : ℚ)
    (entry_type : EntryType) (due_custom_val : ℚ) (note_text : String) :
    SessionState × Option ValidationError :=
  if name = "" then (s, some .EmptyName)
  else if total_value ≤ 0 ∧ entry_type = .Standard then (s, some .NonPositiveTotal)
  else
    let new_worker : WorkerEntry :=
      match entry_type with
      | .CF =>
          { ID := wid, Worker := name, Total := total_value, Due := none,
            Withdrawn := none, Remaining := none, Note := note_text, entry_type := .CF }
      | .Standard =>
          let fee := compute_fee total_value
            (if due_custom_val > 0 then some due_custom_val else none)
          let remaining := total_value / 2 - withdrawn_val - fee
          { ID := wid, Worker := name, Total := total_value, Due := some fee,
            Withdrawn := some withdrawn_val, Remaining := some remaining,
            Note := note_text, entry_type := .Standard }
    ({ s with workers := s.workers ++ [new_worker] }, none)

/-- The deletion filter of the Yes-Delete button (src/app.py line 69):
keep every worker whose ID differs from the pending one. -/
def removeEntry (workers : List WorkerEntry) (wid : String) : List WorkerEntry :=
  workers.filter (fun w => w.ID != wid)

/-- Python truthiness of worker_id_to_delete (src/app.py line 60): a string
is truthy when it is non-empty, None is falsy. -/
def truthyId : Option String → Bool
  | some i => i != ""
  | none => false

/-- The worker_to_delete lookup (src/app.py line 61): the first worker whose
ID matches the pending identifier. -/
def find_worker_to_delete (s : SessionState) : Option WorkerEntry :=
  match s.worker_id_to_delete with
  | some i => s.workers.find? (fun w => w.ID == i)
  | none => none

/-- Whether the confirmation dialog is rendered on a rerun (src/app.py
lines 60-63): both flags truthy and the pending worker still found. -/
def dialogShown (s : SessionState) : Bool :=
  s.show_delete_dialog && truthyId s.worker_id_to_delete &&
    (find_worker_to_delete s).isSome

/-- The Delete-Selected-Worker button (src/app.py lines 138-143): record the
chosen identifier and raise the dialog flag; nothing else changes. -/
def requestDelete (s : SessionState) (wid : String) : SessionState :=
  { s with worker_id_to_delete := some wid, show_delete_dialog := true }

/-- The Yes-Delete button inside the dialog (src/app.py lines 68-73).  The
button exists only while the dialog is rendered, so the action is a no-op
unless `dialogShown`. -/
def confirmDelete (s : SessionState) : SessionState :=
  if dialogShown s then
    { workers := removeEntry s.workers (s.worker_id_to_delete.getD ""),
      worker_id_to_delete := none, show_delete_dialog := false }
  else s

/-- The Cancel button inside the dialog (src/app.py lines 75-79): drop the
pending identifier and hide the dialog, leaving the ledger alone. -/
def cancelDelete (s : SessionState) : SessionState :=
  if dialogShown s then
    { s with worker_id_to_delete := none, show_delete_dialog := false }
  else s

/-- The Reset-All-Workers button (src/app.py lines 161-165): clear the worker
list when it is non-empty; the delete-dialog flags are not touched. -/
def resetWorkers (s : SessionState) : SessionState :=
  if s.workers.isEmpty then s else { s with workers := [] }

/-- One cell of `pd.to_numeric(..., errors=coerce).fillna(0)` (src/app.py
line 148): a missing (CF) financial field counts as 0. -/
def orZero : Option ℚ → ℚ
  | some q => q
  | none => 0

/-- The Total column sum (src/app.py line 149). -/
def total_sum (workers : List WorkerEntry) : ℚ :=
  (workers.map (fun w => w.Total)).sum

/-- The Withdrawn column sum after coercion (src/app.py lines 148-149). -/
def withdrawn_sum (workers : List WorkerEntry) : ℚ :=
  (workers.map (fun w => orZero w.Withdrawn)).sum

/-- The Remaining column sum after coercion (src/app.py lines 148-149). -/
def remaining_sum (workers : List WorkerEntry) : ℚ :=
  (workers.map (fun w => orZero w.Remaining)).sum

/-- The aggregate `for_workers = withdrawn_sum + remaining_sum` (src/app.py
line 150). -/
def for_workers (workers : List WorkerEntry) : ℚ :=
  withdrawn_sum workers + remaining_sum workers

/-- The aggregate `for_cleanfoam = total_sum - for_workers` (src/app.py
line 151); the specification calls this forBusiness. -/
def for_cleanfoam (workers : List WorkerEntry) : ℚ :=
  total_sum workers - for_workers workers

/-- Decimal digits of a fractional part q (with 0 ≤ q < 1), most significant
first, stopping when the remainder is zero; the fuel caps the expansion the
way the CPython shortest-round-trip float repr caps significant digits. -/
def fracDigits : ℕ → ℚ → List ℕ
  | 0, _ => []
  | fuel + 1, q =>
      if q = 0 then []
      else
        let q10 := q * 10
        let d := pyTrunc q10
        d.toNat :: fracDigits fuel (q10 - (d : ℚ))

/-- CPython str() of a non-negative float whose shortest round-trip repr is
its terminating decimal expansion (true of every value the app computes):
integer part, a dot, then the fractional digits — at least one, so an
integral value renders as `N.0`. -/
def pyFloatStrNN (q : ℚ) : String :=
  let n := (pyTrunc q).toNat
  let ds := fracDigits 17 (q - (n : ℚ))
  toString n ++ "." ++ (if ds.isEmpty then "0" else String.join (ds.map toString))

/-- CPython str() of a float, which is how pandas to_csv renders a numeric
cell: src/app.py line 168 applies no formatting, so the raw stored values
are written. -/
def pyFloatStr (q : ℚ) : String :=
  if q < 0 then "-" ++ pyFloatStrNN (-q) else pyFloatStrNN q

/-- One CSV cell for a possibly-empty financial field: the empty-string
placeholder of a CF entry stays an empty cell. -/
def renderOptCell : Option ℚ → String
  | some q => pyFloatStr q
  | none => ""

/-- The fixed column order of the export (src/app.py line 167). -/
def csvHeader : List String :=
  ["Worker", "Total", "Due", "Withdrawn", "Remaining", "Note"]

/-- One data row of `df_csv.to_csv(index=False)` (src/app.py lines 167-168):
the six selected columns of one worker dict, numbers rendered as pandas
renders raw floats. -/
def csvRow (w : WorkerEntry) : List String :=
  [w.Worker, pyFloatStr w.Total, renderOptCell w.Due, renderOptCell w.Withdrawn,
   renderOptCell w.Remaining, w.Note]

/-- The export `df_csv.to_csv(index=False)` (src/app.py lines 166-168) as a
list of rows of cells: the header, then one row per worker in ledger
order. -/
def to_csv (workers : List WorkerEntry) : List (List String) :=
  csvHeader :: workers.map csvRow

/-- The report date of the session (src/app.py lines 23-24 and 82). -/
structure ReportDate where
  year : ℕ
  month : ℕ
  day : ℕ
deriving DecidableEq

/-- Two-digit zero padding, as strftime pads `%m` and `%d`. -/
def pad2 (n : ℕ) : String := if n < 10 then "0" ++ toString n else toString n

/-- Four-digit zero padding, as strftime pads `%Y`. -/
def pad4 (n : ℕ) : String :=
  if n < 10 then "000" ++ toString n
  else if n < 100 then "00" ++ toString n
  else if n < 1000 then "0" ++ toString n
  else toString n

/-- The `report_date.strftime(%Y%m%d)` stamp (src/app.py line 168). -/
def strftimeYMD (d : ReportDate) : String := pad4 d.year ++ pad2 d.month ++ pad2 d.day

/-- The download file name (src/app.py line 168). -/
def csvFileName (d : ReportDate) : String :=
  "cleanfoam_report_" ++ strftimeYMD d ++ ".csv"

/-- A concrete Standard entry used to instantiate theorems: the stored
fields are exactly what the add handler computes for total 100, withdrawn 10,
no custom due (fee 25, remaining 50 - 10 - 25 = 15). -/
def sampleStd (i nm : String) : WorkerEntry :=
  { ID := i, Worker := nm, Total := 100, Due := some 25, Withdrawn := some 10,
    Remaining := some 15, Note := "", entry_type := .Standard }

/-- A concrete CF entry used to instantiate theorems. -/
def sampleCF (i nm : String) : WorkerEntry :=
  { ID := i, Worker := nm, Total := 50, Due := none, Withdrawn := none,
    Remaining := none, Note := "", entry_type := .CF }

end CleanFoam

namespace CleanFoam

theorem lookup_cons_pair (k v t : ℚ) (l : List (ℚ × ℚ)) :
    ((k, v) :: l).lookup t = if t = k then some v else l.lookup t := by
  by_cases h : t = k
  · simp [List.lookup, h]
  · simp [List.lookup, h, beq_eq_false_iff_ne.mpr h]

theorem lookup_spec_table (t : ℚ) :
    computeFee_spec_table.lookup t =
      if t = 80 then some 20 else if t = 90 then some 20 else if t = 95 then some 22.5
      else if t = 100 then some 25 else if t = 105 then some 27.5
      else if t = 110 then some 25 else none := by
  simp only [computeFee_spec_table, lookup_cons_pair, List.lookup_nil]

theorem fee_rules_eq_spec_rest (t : ℚ) : fee_rules t = computeFee_spec_rest t := by
  rw [computeFee_spec_rest, lookup_spec_table, fee_rules]
  split_ifs <;> rfl

/-- Claim C1: `compute_fee` follows the rule precedence of the specification
exactly — a custom due that is provided and positive is returned unchanged,
else the exact-match table decides by exact numeric value, else the total
truncated to an integer is tested for remainder 5 modulo 10 giving 32.5, else
30 — and it takes the particular values the specification lists, including
`compute_fee 104.9 none = 30` (truncation, not rounding) and
`compute_fee 105 none = 27.5` (table before modulo test). -/
theorem compute_fee_follows_spec :
    (∀ (t : ℚ) (c : Option ℚ), compute_fee t c = computeFee_spec t c) ∧
    compute_fee 80 none = 20 ∧
    compute_fee 95 none = 22.5 ∧
    compute_fee 115 none = 32.5 ∧
    compute_fee 101 none = 30 ∧
    compute_fee 100 (some 999) = 999 ∧
    compute_fee 104.9 none = 30 ∧
    compute_fee 105 none = 27.5 := by
  refine ⟨fun t c => ?_, by norm_num [compute_fee, fee_rules],
    by norm_num [compute_fee, fee_rules],
    by norm_num [compute_fee, fee_rules, pyTrunc],
    by norm_num [compute_fee, fee_rules, pyTrunc],
    by norm_num [compute_fee],
    by norm_num [compute_fee, fee_rules, pyTrunc]; decide,
    by norm_num [compute_fee, fee_rules]⟩
  cases c with
  | none => simpa [compute_fee, computeFee_spec] using fee_rules_eq_spec_rest t
  | some cv =>
      simp only [compute_fee, computeFee_spec]
      by_cases h : 0 < cv <;> simp [h, fee_rules_eq_spec_rest t]

theorem compute_fee_if_custom (t c : ℚ) :
    compute_fee t (if c > 0 then some c else none) = compute_fee t (some c) := by
  by_cases h : 0 < c <;> simp [compute_fee, h]

/-- Claim C2: a successfully created Standard entry stores
`due = compute_fee total customDue` — where a zero custom due behaves like an
absent one — and stores `remaining = total / 2 - withdrawn - due` exactly;
nothing rejects a negative remaining (the theorem holds for every withdrawn,
however large). -/
theorem standard_entry_due_and_remaining (s : SessionState) (wid name : String)
    (total withdrawn custom : ℚ) (note : String)
    (hname : name ≠ "") (htotal : 0 < total) :
    ∃ e : WorkerEntry,
      addWorker s wid name total withdrawn .Standard custom note =
        ({ s with workers := s.workers ++ [e] }, none) ∧
      e.Due = some (compute_fee total (some custom)) ∧
      e.Remaining = some (total / 2 - withdrawn - compute_fee total (some custom)) ∧
      e.Withdrawn = some withdrawn ∧ e.Total = total ∧
      compute_fee total (some 0) = compute_fee total none := by
  refine ⟨{ ID := wid
            Worker := name
            Total := total
            Due := some (compute_fee total (if custom > 0 then some custom else none))
            Withdrawn := some withdrawn
            Remaining := some (total / 2 - withdrawn -
              compute_fee total (if custom > 0 then some custom else none))
            Note := note
            entry_type := .Standard }, ?_, ?_, ?_, rfl, rfl, by simp [compute_fee]⟩
  · rw [addWorker, if_neg hname, if_neg (by simp [not_le.mpr htotal])]
  · simp [compute_fee_if_custom]
  · simp [compute_fee_if_custom]

/-- Witness for C2 at total 100, withdrawn 60, custom due 0: the stored
remaining is 50 - 60 - 25 = -35, negative and still stored. -/
theorem standard_entry_witness :
    ∃ e : WorkerEntry,
      addWorker initial_session_state "w1" "Ana" 100 60 .Standard 0 "" =
        ({ initial_session_state with
            workers := initial_session_state.workers ++ [e] }, none) ∧
      e.Due = some (compute_fee 100 (some 0)) ∧
      e.Remaining = some (100 / 2 - 60 - compute_fee 100 (some 0)) ∧
      e.Withdrawn = some 60 ∧ e.Total = 100 ∧
      compute_fee 100 (some 0) = compute_fee 100 none :=
  standard_entry_due_and_remaining initial_session_state "w1" "Ana" 100 60 0 ""
    (by decide) (by norm_num)

/-- Claim C3: the financial summary satisfies, for every ledger state,
`for_workers = withdrawn_sum + remaining_sum` and
`for_workers + for_cleanfoam = total_sum` exactly over the rationals (the
sums treat the missing CF fields as 0 by definition of `orZero`). -/
theorem summary_split_conservation (workers : List WorkerEntry) :
    for_workers workers + for_cleanfoam workers = total_sum workers ∧
    for_workers workers = withdrawn_sum workers + remaining_sum workers :=
  ⟨by rw [for_cleanfoam]; ring, rfl⟩

theorem removeEntry_nodup_decomp (l1 l2 : List WorkerEntry) (w : WorkerEntry)
    (hnodup : ((l1 ++ w :: l2).map WorkerEntry.ID).Nodup) :
    removeEntry (l1 ++ w :: l2) w.ID = l1 ++ l2 := by
  rw [List.map_append, List.map_cons, List.nodup_append] at hnodup
  obtain ⟨hn1, hn2, hdisj⟩ := hnodup
  have hw2 : w.ID ∉ l2.map WorkerEntry.ID := (List.nodup_cons.mp hn2).1
  have h1 : ∀ u ∈ l1, u.ID ≠ w.ID := by
    intro u hu heq
    exact hdisj (List.mem_map_of_mem WorkerEntry.ID hu)
      (heq ▸ List.mem_cons_self w.ID (l2.map WorkerEntry.ID))
  have h2 : ∀ u ∈ l2, u.ID ≠ w.ID := by
    intro u hu heq
    exact hw2 (heq ▸ List.mem_map_of_mem WorkerEntry.ID hu)
  simp only [removeEntry, List.filter_append, List.filter_cons, bne_self_eq_false,
    Bool.false_eq_true, if_false]
  rw [List.filter_eq_self.mpr fun u hu => bne_iff_ne.mpr (h1 u hu),
    List.filter_eq_self.mpr fun u hu => bne_iff_ne.mpr (h2 u hu)]

/-- Claim C4: on a ledger with pairwise-distinct identifiers that contains an
entry with (non-empty) identifier x, requesting deletion of x and cancelling
leaves the ledger unchanged with the workflow idle (no pending identifier,
dialog flag down), while requesting and confirming removes exactly the entry
with identifier x — the ledger splits as l1 ++ w :: l2 with w.ID = x and the
result is l1 ++ l2 — and returns the workflow to idle. -/
theorem delete_workflow_cancel_confirm (s : SessionState) (x : String) (hx : x ≠ "")
    (hnodup : (s.workers.map WorkerEntry.ID).Nodup)
    (hmem : ∃ w ∈ s.workers, w.ID = x) :
    (cancelDelete (requestDelete s x)).workers = s.workers ∧
    (cancelDelete (requestDelete s x)).worker_id_to_delete = none ∧
    (cancelDelete (requestDelete s x)).show_delete_dialog = false ∧
    (confirmDelete (requestDelete s x)).worker_id_to_delete = none ∧
    (confirmDelete (requestDelete s x)).show_delete_dialog = false ∧
    (confirmDelete (requestDelete s x)).workers = removeEntry s.workers x ∧
    ∃ l1 w l2, s.workers = l1 ++ w :: l2 ∧ w.ID = x ∧
      (confirmDelete (requestDelete s x)).workers = l1 ++ l2 := by
  obtain ⟨w, hwmem, hwid⟩ := hmem
  have hshown : dialogShown (requestDelete s x) = true := by
    have hfind : (s.workers.find? (fun w => w.ID == x)).isSome := by
      rw [List.find?_isSome]
      exact ⟨w, hwmem, by simp [hwid]⟩
    simp [dialogShown, requestDelete, truthyId, find_worker_to_delete, hfind,
      bne_iff_ne.mpr hx]
  have hcancel : cancelDelete (requestDelete s x) =
      { workers := s.workers, worker_id_to_delete := none, show_delete_dialog := false } := by
    rw [cancelDelete, if_pos (by rw [hshown])]
    rfl
  have hconfirm : confirmDelete (requestDelete s x) =
      { workers := removeEntry s.workers x, worker_id_to_delete := none,
        show_delete_dialog := false } := by
    rw [confirmDelete, if_pos (by rw [hshown])]
    rfl
  obtain ⟨l1, l2, hsplit⟩ := List.append_of_mem hwmem
  refine ⟨by rw [hcancel], by rw [hcancel], by rw [hcancel],
    by rw [hconfirm], by rw [hconfirm], by rw [hconfirm], l1, w, l2, hsplit, hwid, ?_⟩
  rw [hconfirm]
  show removeEntry s.workers x = l1 ++ l2
  rw [hsplit, ← hwid]
  exact removeEntry_nodup_decomp l1 l2 w (by rw [← hsplit]; exact hnodup)

/-- Witness for C4 on the two-entry ledger [Ana, Bo] with x the identifier of
Ana. -/
theorem delete_workflow_witness :
    (cancelDelete (requestDelete { workers := [sampleStd "a" "Ana", sampleCF "b" "Bo"]
                                   worker_id_to_delete := none
                                   show_delete_dialog := false } "a")).workers =
      [sampleStd "a" "Ana", sampleCF "b" "Bo"] ∧
    (cancelDelete (requestDelete { workers := [sampleStd "a" "Ana", sampleCF "b" "Bo"]
                                   worker_id_to_delete := none
                                   show_delete_dialog := false } "a")).worker_id_to_delete = none ∧
    (cancelDelete (requestDelete { workers := [sampleStd "a" "Ana", sampleCF "b" "Bo"]
                                   worker_id_to_delete := none
                                   show_delete_dialog := false } "a")).show_delete_dialog = false ∧
    (confirmDelete (requestDelete { workers := [sampleStd "a" "Ana", sampleCF "b" "Bo"]
                                    worker_id_to_delete := none
                                    show_delete_dialog := false } "a")).worker_id_to_delete = none ∧
    (confirmDelete (requestDelete { workers := [sampleStd "a" "Ana", sampleCF "b" "Bo"]
                                    worker_id_to_delete := none
                                    show_delete_dialog := false } "a")).show_delete_dialog = false ∧
    (confirmDelete (requestDelete { workers := [sampleStd "a" "Ana", sampleCF "b" "Bo"]
                                    worker_id_to_delete := none
                                    show_delete_dialog := false } "a")).workers =
      removeEntry [sampleStd "a" "Ana", sampleCF "b" "Bo"] "a" ∧
    ∃ l1 w l2, [sampleStd "a" "Ana", sampleCF "b" "Bo"] = l1 ++ w :: l2 ∧ w.ID = "a" ∧
      (confirmDelete (requestDelete { workers := [sampleStd "a" "Ana", sampleCF "b" "Bo"]
                                      worker_id_to_delete := none
                                      show_delete_dialog := false } "a")).workers = l1 ++ l2 :=
  delete_workflow_cancel_confirm
    { workers := [sampleStd "a" "Ana", sampleCF "b" "Bo"]
      worker_id_to_delete := none
      show_delete_dialog := false } "a" (by decide) (by decide)
    ⟨sampleStd "a" "Ana", by decide, rfl⟩

/-- Claim C5 as amended: a delete request for an identifier that is not in
the ledger mutates no ledger entry and renders no confirmation dialog, so the
confirm and cancel actions are no-ops; but no NotFound signal exists and the
workflow keeps holding the pending identifier (with the dialog flag raised)
instead of returning to the idle state. -/
theorem request_delete_absent (s : SessionState) (x : String)
    (habs : ∀ w ∈ s.workers, w.ID ≠ x) :
    (requestDelete s x).workers = s.workers ∧
    dialogShown (requestDelete s x) = false ∧
    confirmDelete (requestDelete s x) = requestDelete s x ∧
    cancelDelete (requestDelete s x) = requestDelete s x ∧
    (requestDelete s x).worker_id_to_delete = some x := by
  have hfind : s.workers.find? (fun w => w.ID == x) = none :=
    List.find?_eq_none.mpr fun w hw => by simp [habs w hw]
  have hshown : dialogShown (requestDelete s x) = false := by
    simp [dialogShown, requestDelete, find_worker_to_delete, hfind]
  refine ⟨rfl, hshown, ?_, ?_, rfl⟩
  · rw [confirmDelete, if_neg (by rw [hshown]; exact Bool.false_ne_true)]
  · rw [cancelDelete, if_neg (by rw [hshown]; exact Bool.false_ne_true)]

/-- Witness for C5 on a one-entry ledger whose only identifier differs from
the requested one. -/
theorem request_delete_absent_witness :
    (requestDelete { workers := [sampleStd "b" "Ana"]
                     worker_id_to_delete := none
                     show_delete_dialog := false } "a").workers = [sampleStd "b" "Ana"] ∧
    dialogShown (requestDelete { workers := [sampleStd "b" "Ana"]
                                 worker_id_to_delete := none
                                 show_delete_dialog := false } "a") = false ∧
    confirmDelete (requestDelete { workers := [sampleStd "b" "Ana"]
                                   worker_id_to_delete := none
                                   show_delete_dialog := false } "a") =
      requestDelete { workers := [sampleStd "b" "Ana"]
                      worker_id_to_delete := none
                      show_delete_dialog := false } "a" ∧
    cancelDelete (requestDelete { workers := [sampleStd "b" "Ana"]
                                  worker_id_to_delete := none
                                  show_delete_dialog := false } "a") =
      requestDelete { workers := [sampleStd "b" "Ana"]
                      worker_id_to_delete := none
                      show_delete_dialog := false } "a" ∧
    (requestDelete { workers := [sampleStd "b" "Ana"]
                     worker_id_to_delete := none
                     show_delete_dialog := false } "a").worker_id_to_delete = some "a" :=
  request_delete_absent
    { workers := [sampleStd "b" "Ana"]
      worker_id_to_delete := none
      show_delete_dialog := false } "a" (by decide)

/-- Counterexample to C5 as stated: after a delete request for the absent
identifier "a" on the empty ledger, the workflow holds `some "a"` as pending
identifier with the dialog flag raised — it is not in (nor returned to) the
idle state, and no NotFound reset happens. -/
theorem request_delete_absent_keeps_pending :
    (requestDelete initial_session_state "a").worker_id_to_delete = some "a" ∧
    (requestDelete initial_session_state "a").worker_id_to_delete ≠ none ∧
    (requestDelete initial_session_state "a").show_delete_dialog = true ∧
    (requestDelete initial_session_state "a").workers = [] ∧
    (∀ w ∈ initial_session_state.workers, w.ID ≠ "a") :=
  ⟨rfl, by decide, rfl, rfl, by simp [initial_session_state]⟩

/-- Claim C6 as amended: validation runs in order — an exactly-empty worker
name yields EmptyName (a whitespace-only name passes, see the
counterexample); then a Standard entry with non-positive total yields
NonPositiveTotal; a CF entry is exempt from the positive-total check and is
appended even then; and every validation error returns the session state
unchanged, appending nothing. -/
theorem entry_validation_order (s : SessionState) (wid name : String)
    (total withdrawn custom : ℚ) (etype : EntryType) (note : String) :
    (name = "" →
      addWorker s wid name total withdrawn etype custom note = (s, some .EmptyName)) ∧
    (name ≠ "" → total ≤ 0 → etype = .Standard →
      addWorker s wid name total withdrawn etype custom note =
        (s, some .NonPositiveTotal)) ∧
    (name ≠ "" → ∃ e : WorkerEntry,
      addWorker s wid name total withdrawn .CF custom note =
        ({ s with workers := s.workers ++ [e] }, none)) ∧
    (∀ err : ValidationError,
      (addWorker s wid name total withdrawn etype custom note).2 = some err →
      (addWorker s wid name total withdrawn etype custom note).1 = s) := by
  refine ⟨fun h => by rw [addWorker.eq_def, if_pos h], fun hn h0 hstd => ?_,
    fun hn => ?_, ?_⟩
  · rw [addWorker.eq_def, if_neg hn, if_pos ⟨h0, hstd⟩]
  · exact ⟨{ ID := wid
             Worker := name
             Total := total
             Due := none
             Withdrawn := none
             Remaining := none
             Note := note
             entry_type := .CF },
      by rw [addWorker, if_neg hn, if_neg (by simp)]⟩
  · intro err
    rw [addWorker.eq_def]
    split_ifs <;> simp

/-- Counterexample to C6 as stated: the whitespace-only (blank but non-empty)
worker name " " passes validation — the add succeeds and appends an entry
instead of yielding EmptyName. -/
theorem blank_name_accepted :
    (addWorker initial_session_state "a" " " 50 0 .Standard 0 "").2 = none ∧
    (addWorker initial_session_state "a" " " 50 0 .Standard 0 "").1.workers.length = 1 ∧
    (" " : String) ≠ "" := by
  rw [addWorker, if_neg (by decide), if_neg (by norm_num)]
  exact ⟨rfl, rfl, by decide⟩

/-- Claim C8: `removeEntry` is idempotent, is a no-op when the identifier is
absent (with no error — it is a total function), and keeps exactly the
entries with a different identifier, in their original relative order (the
result is a sublist of the input whose members are exactly the survivors). -/
theorem remove_entry_algebra (workers : List WorkerEntry) (wid : String) :
    removeEntry (removeEntry workers wid) wid = removeEntry workers wid ∧
    ((∀ w ∈ workers, w.ID ≠ wid) → removeEntry workers wid = workers) ∧
    (removeEntry workers wid).Sublist workers ∧
    (∀ w : WorkerEntry, w ∈ removeEntry workers wid ↔ w ∈ workers ∧ w.ID ≠ wid) := by
  refine ⟨?_, fun h => ?_, List.filter_sublist workers, fun w => ?_⟩
  · simp only [removeEntry]
    exact List.filter_eq_self.mpr fun w hw => (List.mem_filter.mp hw).2
  · simp only [removeEntry]
    exact List.filter_eq_self.mpr fun w hw => bne_iff_ne.mpr (h w hw)
  · simp [removeEntry, List.mem_filter, bne_iff_ne]

/-- Claim C9 as amended: a valid add always appends the new entry at the end
of the sequence, leaving every existing entry unchanged, and never fails on
identifier grounds — the code contains no duplicate-identifier check
(uniqueness rests entirely on fresh uuid assignment), so the add succeeds
even when the given identifier is already present. -/
theorem add_appends_never_fails (s : SessionState) (wid name : String)
    (total withdrawn custom : ℚ) (etype : EntryType) (note : String)
    (hname : name ≠ "") (htotal : etype = .Standard → 0 < total) :
    ∃ e : WorkerEntry, e.ID = wid ∧
      addWorker s wid name total withdrawn etype custom note =
        ({ s with workers := s.workers ++ [e] }, none) := by
  cases etype with
  | CF =>
      refine ⟨{ ID := wid
                Worker := name
                Total := total
                Due := none
                Withdrawn := none
                Remaining := none
                Note := note
                entry_type := .CF }, rfl, ?_⟩
      rw [addWorker, if_neg hname, if_neg (by simp)]
  | Standard =>
      refine ⟨{ ID := wid
                Worker := name
                Total := total
                Due := some (compute_fee total (if custom > 0 then some custom else none))
                Withdrawn := some withdrawn
                Remaining := some (total / 2 - withdrawn -
                  compute_fee total (if custom > 0 then some custom else none))
                Note := note
                entry_type := .Standard }, rfl, ?_⟩
      rw [addWorker, if_neg hname, if_neg (by simp [not_le.mpr (htotal rfl)])]

/-- Witness for C9: adding with identifier "a" to a ledger that already holds
identifier "a" still succeeds and appends at the end. -/
theorem add_appends_witness :
    ∃ e : WorkerEntry, e.ID = "a" ∧
      addWorker { workers := [sampleStd "a" "Ana"]
                  worker_id_to_delete := none
                  show_delete_dialog := false } "a" "Bob" 50 0 .Standard 0 "" =
        ({ ({ workers := [sampleStd "a" "Ana"]
              worker_id_to_delete := none
              show_delete_dialog := false } : SessionState) with
            workers := ({ workers := [sampleStd "a" "Ana"]
                          worker_id_to_delete := none
                          show_delete_dialog := false } : SessionState).workers ++ [e] },
          none) :=
  add_appends_never_fails
    { workers := [sampleStd "a" "Ana"]
      worker_id_to_delete := none
      show_delete_dialog := false } "a" "Bob" 50 0 0 .Standard ""
    (by decide) (fun _ => by norm_num)

/-- Counterexample to C9 as stated: adding an entry whose identifier "a" is
already present does not fail — no error is returned and the ledger ends with
the duplicate identifier sequence ["a", "a"]. -/
theorem duplicate_id_add_not_failing :
    (addWorker { workers := [sampleStd "a" "Ana"]
                 worker_id_to_delete := none
                 show_delete_dialog := false } "a" "Bob" 50 0 .Standard 0 "").2 = none ∧
    (addWorker { workers := [sampleStd "a" "Ana"]
                 worker_id_to_delete := none
                 show_delete_dialog := false } "a" "Bob" 50 0 .Standard 0 "").1.workers.map
      WorkerEntry.ID = ["a", "a"] := by
  rw [addWorker, if_neg (by decide), if_neg (by norm_num)]
  exact ⟨rfl, rfl⟩

/-- Claim C10: the reset action clears the worker list but leaves the
deletion-workflow state untouched — a pending identifier is still pending
afterwards (and the dialog flag keeps its value) even though the referenced
entry no longer exists. -/
theorem reset_keeps_delete_state (s : SessionState) (x : String)
    (hpending : s.worker_id_to_delete = some x) :
    (resetWorkers s).workers = [] ∧
    (resetWorkers s).worker_id_to_delete = some x ∧
    (resetWorkers s).show_delete_dialog = s.show_delete_dialog := by
  rw [resetWorkers]
  by_cases h : s.workers.isEmpty
  · simp [h, List.isEmpty_iff.mp h, hpending]
  · simp [h, hpending]

/-- Witness for C10 on a one-entry ledger with the deletion of that entry
pending. -/
theorem reset_keeps_delete_state_witness :
    (resetWorkers { workers := [sampleStd "a" "Ana"]
                    worker_id_to_delete := some "a"
                    show_delete_dialog := true }).workers = [] ∧
    (resetWorkers { workers := [sampleStd "a" "Ana"]
                    worker_id_to_delete := some "a"
                    show_delete_dialog := true }).worker_id_to_delete = some "a" ∧
    (resetWorkers { workers := [sampleStd "a" "Ana"]
                    worker_id_to_delete := some "a"
                    show_delete_dialog := true }).show_delete_dialog =
      ({ workers := [sampleStd "a" "Ana"]
         worker_id_to_delete := some "a"
         show_delete_dialog := true } : SessionState).show_delete_dialog :=
  reset_keeps_delete_state
    { workers := [sampleStd "a" "Ana"]
      worker_id_to_delete := some "a"
      show_delete_dialog := true } "a" rfl

theorem fracDigits_zero (fuel : ℕ) : fracDigits fuel 0 = [] := by
  cases fuel <;> simp [fracDigits]

theorem fracDigits_step (fuel : ℕ) (q : ℚ) (hq : q ≠ 0) :
    fracDigits (fuel + 1) q =
      (pyTrunc (q * 10)).toNat :: fracDigits fuel (q * 10 - ((pyTrunc (q * 10) : ℤ) : ℚ)) := by
  simp [fracDigits, hq]

theorem pyTrunc_den_one (q : ℚ) (hden : q.den = 1) : pyTrunc q = q.num := by
  simp [pyTrunc, hden]

/-- An integer-valued non-negative rational renders with a trailing dot-zero,
the way CPython prints an integral float. -/
theorem pyFloatStr_int_val (q : ℚ) (hden : q.den = 1) (h0 : 0 ≤ q) :
    pyFloatStr q = toString (pyTrunc q).toNat ++ "." ++ "0" := by
  have hnum : ((q.num : ℤ) : ℚ) = q := by
    rw [← Rat.den_eq_one_iff]
    exact hden
  have htr : pyTrunc q = q.num := pyTrunc_den_one q hden
  have hsub : q - (((pyTrunc q).toNat : ℕ) : ℚ) = 0 := by
    rw [htr]
    rw [show ((q.num.toNat : ℕ) : ℚ) = ((q.num.toNat : ℤ) : ℚ) by push_cast; ring]
    rw [Int.toNat_of_nonneg (Rat.num_nonneg.mpr h0), hnum, sub_self]
  rw [pyFloatStr, if_neg (not_lt.mpr h0), pyFloatStrNN]
  simp [hsub, fracDigits_zero]

theorem pyFloatStr_half_22 : pyFloatStr 22.5 = "22.5" := by
  have htr : pyTrunc (22.5 : ℚ) = 22 := by norm_num [pyTrunc]; decide
  have hc : (((22 : ℤ).toNat : ℕ) : ℚ) = 22 := by
    rw [show (22 : ℤ).toNat = (22 : ℕ) from rfl]
    norm_num
  have hfrac : (22.5 : ℚ) - 22 = 1/2 := by norm_num
  have h5 : pyTrunc (5 : ℚ) = 5 := by norm_num [pyTrunc]
  have h17 : fracDigits 17 (1/2 : ℚ) = [5] := by
    rw [show (17 : ℕ) = 16 + 1 from rfl, fracDigits_step 16 (1/2) (by norm_num)]
    rw [show (1/2 : ℚ) * 10 = 5 by norm_num, h5]
    rw [show (5 : ℚ) - ((5 : ℤ) : ℚ) = 0 by norm_num, fracDigits_zero]
    decide
  rw [pyFloatStr, if_neg (by norm_num), pyFloatStrNN]
  rw [htr, hc, hfrac, h17]
  decide

/-- Claim C7 as amended: the export has the fixed header row
Worker, Total, Due, Withdrawn, Remaining, Note, one row per entry in ledger
order, empty cells (not 0) for the missing financial fields of CF entries,
and the file name embeds the report date as cleanfoam_report_YYYYMMDD.csv;
but the numeric cells are the raw floats as pandas writes them — an
integer-valued amount renders with a trailing dot-zero (never without a
fractional part), and a non-integral amount keeps its shortest decimal form
rather than exactly two decimal places. -/
theorem to_csv_layout (workers : List WorkerEntry) (d : ReportDate) :
    to_csv workers = csvHeader :: workers.map csvRow ∧
    (to_csv workers).length = workers.length + 1 ∧
    csvHeader = ["Worker", "Total", "Due", "Withdrawn", "Remaining", "Note"] ∧
    (∀ w ∈ workers, w.Due = none → w.Withdrawn = none → w.Remaining = none →
      csvRow w = [w.Worker, pyFloatStr w.Total, "", "", "", w.Note]) ∧
    (∀ q : ℚ, q.den = 1 → 0 ≤ q →
      pyFloatStr q = toString (pyTrunc q).toNat ++ "." ++ "0") ∧
    csvFileName d = "cleanfoam_report_" ++ strftimeYMD d ++ ".csv" := by
  refine ⟨rfl, by simp [to_csv], rfl, ?_, pyFloatStr_int_val, rfl⟩
  intro w _ hd hw hr
  simp [csvRow, renderOptCell, hd, hw, hr]

/-- Counterexample to C7 as stated: the export writes the raw floats, so the
integral total 100 of a Standard entry renders as the cell "100.0" — not
"100", which the no-fractional-part rule of the claim demands — and the
non-integral value 22.5 renders as "22.5", not "22.50" with exactly two
decimal places. -/
theorem to_csv_rendering_counterexample :
    to_csv [sampleStd "a" "Ana"] =
      [["Worker", "Total", "Due", "Withdrawn", "Remaining", "Note"],
       ["Ana", "100.0", "25.0", "10.0", "15.0", ""]] ∧
    ("100.0" : String) ≠ "100" ∧
    pyFloatStr 22.5 = "22.5" ∧ ("22.5" : String) ≠ "22.50" := by
  have h100 : pyFloatStr 100 = "100.0" := by
    rw [pyFloatStr_int_val 100 (by norm_num) (by norm_num)]
    norm_num [pyTrunc]
    decide
  have h25 : pyFloatStr 25 = "25.0" := by
    rw [pyFloatStr_int_val 25 (by norm_num) (by norm_num)]
    norm_num [pyTrunc]
    decide
  have h10 : pyFloatStr 10 = "10.0" := by
    rw [pyFloatStr_int_val 10 (by norm_num) (by norm_num)]
    norm_num [pyTrunc]
    decide
  have h15 : pyFloatStr 15 = "15.0" := by
    rw [pyFloatStr_int_val 15 (by norm_num) (by norm_num)]
    norm_num [pyTrunc]
    decide
  refine ⟨?_, by decide, pyFloatStr_half_22, by decide⟩
  simp [to_csv, csvHeader, csvRow, renderOptCell, sampleStd, h100, h25, h10, h15]

end CleanFoam
